import Mathlib

/-!
Verification of the brave-search TypeScript client against its
natural-language specification.

The development shallowly embeds the client logic of `src/braveSearch.ts`
(and its sibling variants of the same module found in the repository):
the summary polling loop `pollForSummary`, the option serialization
`formatOptions`, the error classification `handleApiError`, the
constructor defaults, and the 422 retry path of `webSearch`.

Network I/O is modelled by passing the sequence of HTTP outcomes
explicitly: the summarizer lookup endpoint is an oracle
`Nat → SummarizerSearchApiResponse` giving the response to the i-th
issued request, and each embedded operation returns, next to its
result, the number (or trace) of requests it issued.

The deep response payload shapes (hundreds of inert data declarations in
`types.ts`) are embedded only as far as the client logic reads them:
the poll loop reads `status` and `summary`; the orchestration reads
`summarizer.key`.  Remaining payload fields are never inspected by any
code under verification and are omitted from the structures.
-/

/-- JS string used for single quotes inside message literals. -/
def singleQuote : String := String.singleton (Char.ofNat 39)

/-! ## Data model (from `types.ts`) -/

/-- Embeds `SummaryEntity` of `types.ts` (fields `uuid`, `name`, `url`, `text`). -/
structure SummaryEntity where
  uuid : String
  name : String
  url : String
  text : String
deriving DecidableEq

/-- Embeds the `SummaryEntity | string` union used by `SummaryMessage.data`. -/
inductive SummaryData where
  | entity (e : SummaryEntity)
  | str (s : String)
deriving DecidableEq

/-- Embeds `SummaryMessage` of `types.ts`: a `type` tag
(`"token" | "enum_item" | "enum_start" | "enum_end"`) and a `data` union. -/
structure SummaryMessage where
  type : String
  data : SummaryData
deriving DecidableEq

/-- Embeds `SummarizerSearchApiResponse` of `types.ts`.  The client logic
reads only `status` (compared against the literals `"complete"` and
`"failed"`) and the JS truthiness of `summary` (`SummaryMessage[] | undefined`;
any present array, including the empty one, is truthy).  `title` and
`followups` are carried as inert data; the remaining payload fields
(`enrichments`, `entities_infos`) are likewise never read by the client
and are not modelled. -/
structure SummarizerSearchApiResponse where
  type : String
  status : String
  title : Option String := none
  summary : Option (List SummaryMessage) := none
  followups : Option (List String) := none
deriving DecidableEq

/-- Embeds `Summarizer` of `types.ts` (fields `type`, `key`). -/
structure Summarizer where
  type : String
  key : String
deriving DecidableEq

/-- Embeds `WebSearchApiResponse` as far as the client reads it: the code
under verification only evaluates `webSearchResponse.summarizer?.key`; the
result sections (`web`, `news`, `videos`, ...) are inert payload. -/
structure WebSearchApiResponse where
  type : String
  summarizer : Option Summarizer := none
deriving DecidableEq

/-- Embeds the JSON body attached to a failed HTTP response
(`error.response?.data`): an optional `message` field, read by
`handleApiError`, plus the rest of the payload kept opaque. -/
structure ResponseBody where
  message : Option String
  payload : String
deriving DecidableEq

/-- Embeds the `error.response` object of a failed axios request:
an HTTP `status` and an optional JSON `data` body. -/
structure AxiosResponse where
  status : Nat
  data : Option ResponseBody
deriving DecidableEq

/-- Embeds the error value caught by the client: either an axios error
(with its `message` and optional `response`), or any other thrown value,
of which only `message` is read. -/
inductive RequestError where
  | axiosErr (message : String) (response : Option AxiosResponse)
  | otherErr (message : String)
deriving DecidableEq

/-- Embeds `BraveSearchError` of the variants whose constructor takes
`(message, responseData?)`; the `name` field is the constant string
`"BraveSearchError"` and is not modelled. -/
structure BraveSearchError where
  message : String
  responseData : Option ResponseBody := none
deriving DecidableEq

/-- Embeds the earliest `BraveSearchError` variant
(`src/braveSearch.ts` lines 29-34), whose constructor takes only the message
and which has no `responseData` field. -/
structure BraveSearchErrorNoData where
  message : String
deriving DecidableEq

/-! ## The summary polling loop (`pollForSummary`) -/

/-- Error thrown by `pollForSummary` on a `"failed"` status:
`new BraveSearchError("Summary generation failed")`. -/
def summaryGenerationFailedError : BraveSearchError :=
  { message := "Summary generation failed" }

/-- Error thrown by `pollForSummary` when the attempt budget is exhausted:
`new BraveSearchError("Summary not available after maximum polling attempts")`. -/
def summaryNotAvailableError : BraveSearchError :=
  { message := "Summary not available after maximum polling attempts" }

/-- Loop body of `pollForSummary`.  `responses i` is the response to the
i-th summarizer lookup request; `fuel` is the number of loop iterations
remaining (`maxPollAttempts - attempt`); `used` is the number of requests
issued so far.  Each iteration issues one request; the JS condition
`summaryResponse.status === "complete" && summaryResponse.summary` reads
the truthiness of `summary : SummaryMessage[] | undefined`, which holds
exactly when the field is present (`Option.isSome`).  Returns the result
together with the total number of requests issued. -/
def pollForSummaryGo (responses : Nat → SummarizerSearchApiResponse) :
    Nat → Nat → Except BraveSearchError SummarizerSearchApiResponse × Nat
  | 0, used => (Except.error summaryNotAvailableError, used)
  | fuel + 1, used =>
    let summaryResponse := responses used
    if summaryResponse.status == "complete" && summaryResponse.summary.isSome then
      (Except.ok summaryResponse, used + 1)
    else if summaryResponse.status == "failed" then
      (Except.error summaryGenerationFailedError, used + 1)
    else
      pollForSummaryGo responses fuel (used + 1)

/-- Embeds `pollForSummary` (identical in all source variants):
`for (let attempt = 0; attempt < this.maxPollAttempts; attempt++)` over the
configured `maxPollAttempts` (a TS number, modelled as `Int`; the loop
runs `max 0 maxPollAttempts` times). -/
def pollForSummary (responses : Nat → SummarizerSearchApiResponse)
    (maxPollAttempts : Int) :
    Except BraveSearchError SummarizerSearchApiResponse × Nat :=
  pollForSummaryGo responses maxPollAttempts.toNat 0

/-- A response on which the loop body of `pollForSummary` takes neither
terminal branch and keeps polling: not (`status === "complete"` with a
present `summary`), and not `status === "failed"`. -/
def continuesPolling (r : SummarizerSearchApiResponse) : Bool :=
  !(r.status == "complete" && r.summary.isSome) && !(r.status == "failed")

/-- A response still pending, used to instantiate witnesses. -/
def pendingResp : SummarizerSearchApiResponse :=
  { type := "summarizer", status := "pending" }

/-- A response with status `"complete"` whose `summary` field is present
but is the empty array. -/
def completeEmptyResp : SummarizerSearchApiResponse :=
  { type := "summarizer", status := "complete", summary := some [] }

/-- A response with status `"failed"`. -/
def failedResp : SummarizerSearchApiResponse :=
  { type := "summarizer", status := "failed" }

lemma pollForSummaryGo_exhausts (responses : Nat → SummarizerSearchApiResponse) :
    ∀ (fuel used : Nat),
      (∀ i, i < fuel → continuesPolling (responses (used + i)) = true) →
      pollForSummaryGo responses fuel used =
        (Except.error summaryNotAvailableError, used + fuel) := by
  intro fuel
  induction fuel with
  | zero => intro used _; simp [pollForSummaryGo]
  | succ f ih =>
    intro used h
    have h0 : continuesPolling (responses used) = true := by
      have := h 0 (Nat.succ_pos f)
      simpa using this
    simp only [continuesPolling, Bool.and_eq_true, Bool.not_eq_true'] at h0
    rw [pollForSummaryGo]
    simp only [h0.1, h0.2, if_false, Bool.false_eq_true]
    have := ih (used + 1) (by
      intro i hi
      have := h (i + 1) (Nat.succ_lt_succ hi)
      have harith : used + (i + 1) = used + 1 + i := by omega
      rwa [harith] at this)
    rw [this]
    have : used + 1 + f = used + (f + 1) := by omega
    rw [this]

lemma pollForSummaryGo_firstSuccess (responses : Nat → SummarizerSearchApiResponse) :
    ∀ (i fuel used : Nat), i < fuel →
      (∀ j, j < i → continuesPolling (responses (used + j)) = true) →
      (responses (used + i)).status = "complete" →
      (responses (used + i)).summary.isSome = true →
      pollForSummaryGo responses fuel used =
        (Except.ok (responses (used + i)), used + i + 1) := by
  intro i
  induction i with
  | zero =>
    intro fuel used hfuel _ hc hs
    obtain ⟨f, rfl⟩ := Nat.exists_eq_succ_of_ne_zero (Nat.pos_iff_ne_zero.mp hfuel)
    rw [pollForSummaryGo]
    simp only [Nat.add_zero] at hc hs
    simp [hc, hs]
  | succ i ih =>
    intro fuel used hfuel hbefore hc hs
    obtain ⟨f, rfl⟩ := Nat.exists_eq_succ_of_ne_zero (by omega : fuel ≠ 0)
    have h0 : continuesPolling (responses used) = true := by
      have := hbefore 0 (Nat.succ_pos i)
      simpa using this
    simp only [continuesPolling, Bool.and_eq_true, Bool.not_eq_true'] at h0
    rw [pollForSummaryGo]
    simp only [h0.1, h0.2, if_false, Bool.false_eq_true]
    have harith : used + (i + 1) = used + 1 + i := by omega
    rw [harith] at hc hs
    have := ih f (used + 1) (by omega)
      (by
        intro j hj
        have := hbefore (j + 1) (Nat.succ_lt_succ hj)
        have h2 : used + (j + 1) = used + 1 + j := by omega
        rwa [h2] at this)
      hc hs
    rw [this, harith]

lemma pollForSummaryGo_firstFailed (responses : Nat → SummarizerSearchApiResponse) :
    ∀ (i fuel used : Nat), i < fuel →
      (∀ j, j < i → continuesPolling (responses (used + j)) = true) →
      (responses (used + i)).status = "failed" →
      pollForSummaryGo responses fuel used =
        (Except.error summaryGenerationFailedError, used + i + 1) := by
  intro i
  induction i with
  | zero =>
    intro fuel used hfuel _ hfail
    obtain ⟨f, rfl⟩ := Nat.exists_eq_succ_of_ne_zero (Nat.pos_iff_ne_zero.mp hfuel)
    rw [pollForSummaryGo]
    simp only [Nat.add_zero] at hfail
    simp [hfail]
  | succ i ih =>
    intro fuel used hfuel hbefore hfail
    obtain ⟨f, rfl⟩ := Nat.exists_eq_succ_of_ne_zero (by omega : fuel ≠ 0)
    have h0 : continuesPolling (responses used) = true := by
      have := hbefore 0 (Nat.succ_pos i)
      simpa using this
    simp only [continuesPolling, Bool.and_eq_true, Bool.not_eq_true'] at h0
    rw [pollForSummaryGo]
    simp only [h0.1, h0.2, if_false, Bool.false_eq_true]
    have harith : used + (i + 1) = used + 1 + i := by omega
    rw [harith] at hfail
    have := ih f (used + 1) (by omega)
      (by
        intro j hj
        have := hbefore (j + 1) (Nat.succ_lt_succ hj)
        have h2 : used + (j + 1) = used + 1 + j := by omega
        rwa [h2] at this)
      hfail
    rw [this, harith]

/-! ## Orchestration: the summary outcome of `getSummarizedAnswer` -/

/-- Embeds the summary promise of `getSummarizedAnswer`: after the web
search resolves, `const summarizerKey = webSearchResponse.summarizer?.key;
if (summarizerKey) { return await this.pollForSummary(...) } return undefined`.
The JS truthiness of the key string makes the empty string falsy.  The
returned counter is the number of summarizer lookup requests issued. -/
def getSummarizedAnswerSummary (web : WebSearchApiResponse)
    (responses : Nat → SummarizerSearchApiResponse) (maxPollAttempts : Int) :
    Except BraveSearchError (Option SummarizerSearchApiResponse) × Nat :=
  match web.summarizer with
  | none => (Except.ok none, 0)
  | some s =>
    if s.key == "" then (Except.ok none, 0)
    else
      match pollForSummary responses maxPollAttempts with
      | (Except.ok r, n) => (Except.ok (some r), n)
      | (Except.error e, n) => (Except.error e, n)

/-! ## Claim C1 -/

/-- The notion of a non-terminal response used by the claim: not failed,
and not complete-with-a-NON-EMPTY-summary-payload.  (The code instead
branches on presence of the `summary` field; the two notions differ on a
complete response whose `summary` is the empty array.) -/
def claimNonTerminal (r : SummarizerSearchApiResponse) : Prop :=
  r.status ≠ "failed" ∧ ¬(r.status = "complete" ∧ ∃ l, r.summary = some l ∧ l ≠ [])

/-- C1 counterexample: the claim, stated with "non-empty summary payload",
is false.  A response with status `"complete"` and `summary` present but
equal to the empty array is non-terminal in the claim's sense, yet
`pollForSummary` returns it as a success after one request (the JS guard
`summaryResponse.summary` tests presence, and a present empty array is
truthy), instead of issuing `maxPollAttempts` requests and raising the
exhaustion error. -/
theorem pollForSummary_exhausts_cex :
    ¬ (∀ (responses : Nat → SummarizerSearchApiResponse) (m : Nat),
        (∀ i, claimNonTerminal (responses i)) →
        pollForSummary responses (m : Int) =
          (Except.error summaryNotAvailableError, m)) := by
  intro h
  have hnt : ∀ i : Nat, claimNonTerminal ((fun _ => completeEmptyResp) i) := by
    intro i
    refine ⟨by simp [completeEmptyResp], ?_⟩
    rintro ⟨-, l, hl, hne⟩
    have : l = [] := by
      have := hl.symm
      simpa [completeEmptyResp] using this
    exact hne this
  have hclaim := h (fun _ => completeEmptyResp) 1 hnt
  have heval : pollForSummary (fun _ => completeEmptyResp) ((1 : Nat) : Int) =
      (Except.ok completeEmptyResp, 1) := rfl
  rw [heval] at hclaim
  exact Except.noConfusion (congrArg Prod.fst hclaim)

/-- C1 (amended): for every sequence of summarizer lookup responses in
which none takes a terminal branch of the loop body (none has status
`"failed"`, and none has status `"complete"` with a PRESENT summary
payload), `pollForSummary` issues exactly `maxPollAttempts` requests and
then raises the error `"Summary not available after maximum polling
attempts"`; it never issues an extra request. -/
theorem pollForSummary_exhausts_after_max
    (responses : Nat → SummarizerSearchApiResponse) (m : Nat)
    (h : ∀ i, i < m → continuesPolling (responses i) = true) :
    pollForSummary responses (m : Int) =
      (Except.error summaryNotAvailableError, m) := by
  unfold pollForSummary
  rw [Int.toNat_natCast]
  have := pollForSummaryGo_exhausts responses m 0 (by
    intro i hi
    simpa using h i hi)
  simpa using this

/-- Witness for C1's amended theorem at a concrete input: three pending
responses with a budget of three attempts. -/
theorem pollForSummary_exhausts_after_max_witness :
    pollForSummary (fun _ => pendingResp) ((3 : Nat) : Int) =
      (Except.error summaryNotAvailableError, 3) :=
  pollForSummary_exhausts_after_max (fun _ => pendingResp) 3
    (fun _ _ => by show continuesPolling pendingResp = true; decide)

/-! ## Claim C2 -/

/-- A completed response with a non-empty summary payload, for witnesses. -/
def completeFullResp : SummarizerSearchApiResponse :=
  { type := "summarizer", status := "complete",
    summary := some [{ type := "token", data := SummaryData.str "Answer" }] }

/-- A response sequence that is pending once and then completed. -/
def pollSeqW : Nat → SummarizerSearchApiResponse :=
  fun n => if n = 0 then pendingResp else completeFullResp

/-- C2 counterexample: the claim, stated with "a response with status
complete but an EMPTY summary payload is not treated as terminal success
and polling continues", is false.  If the first response has status
`"complete"` and `summary` present but equal to the empty array, and at
least two attempts remain, the code does not keep polling: it returns
that response as a success after a single request. -/
theorem pollForSummary_firstSuccess_cex :
    ¬ (∀ (responses : Nat → SummarizerSearchApiResponse) (m : Nat), 2 ≤ m →
        (responses 0).status = "complete" → (responses 0).summary = some [] →
        2 ≤ (pollForSummary responses (m : Int)).2) := by
  intro h
  have hclaim := h (fun _ => completeEmptyResp) 2 (by omega) rfl rfl
  have heval : (pollForSummary (fun _ => completeEmptyResp) ((2 : Nat) : Int)).2 = 1 := rfl
  omega

/-- C2 (amended): `pollForSummary` returns the full summarizer response on
the first response whose status is `"complete"` and whose summary payload
is PRESENT (defined), provided every earlier response took no terminal
branch; a response with status `"complete"` but an ABSENT summary payload
is not treated as terminal success and polling continues.  (A present but
empty summary array is treated as terminal success, as shown by the
counterexample.) -/
theorem pollForSummary_firstSuccess
    (responses : Nat → SummarizerSearchApiResponse) (m i : Nat) (him : i < m)
    (hbefore : ∀ j, j < i → continuesPolling (responses j) = true)
    (hc : (responses i).status = "complete")
    (hs : (responses i).summary.isSome = true) :
    pollForSummary responses (m : Int) = (Except.ok (responses i), i + 1) := by
  unfold pollForSummary
  rw [Int.toNat_natCast]
  have := pollForSummaryGo_firstSuccess responses i m 0 him (by
      intro j hj
      simpa using hbefore j hj)
    (by simpa using hc) (by simpa using hs)
  simpa using this

/-- Witness for C2's amended theorem: a pending response followed by a
completed one with a non-empty summary; the poller returns the completed
response after two requests. -/
theorem pollForSummary_firstSuccess_witness :
    pollForSummary pollSeqW ((4 : Nat) : Int) = (Except.ok completeFullResp, 2) :=
  pollForSummary_firstSuccess pollSeqW 4 1 (by omega)
    (by
      intro j hj
      have hj0 : j = 0 := by omega
      subst hj0
      decide)
    rfl rfl

/-! ## Claim C3 -/

/-- A response sequence that is pending once and then failed. -/
def pollSeqFail : Nat → SummarizerSearchApiResponse :=
  fun n => if n = 0 then pendingResp else failedResp

/-- C3: upon the first observed response whose status is `"failed"` (all
earlier responses having taken no terminal branch), `pollForSummary`
immediately raises the error `"Summary generation failed"` and issues no
further request: exactly `i + 1` requests are issued however many
attempts remain in the budget. -/
theorem pollForSummary_failedStops
    (responses : Nat → SummarizerSearchApiResponse) (m i : Nat) (him : i < m)
    (hbefore : ∀ j, j < i → continuesPolling (responses j) = true)
    (hfail : (responses i).status = "failed") :
    pollForSummary responses (m : Int) =
      (Except.error summaryGenerationFailedError, i + 1) := by
  unfold pollForSummary
  rw [Int.toNat_natCast]
  have := pollForSummaryGo_firstFailed responses i m 0 him (by
      intro j hj
      simpa using hbefore j hj)
    (by simpa using hfail)
  simpa using this

/-- Witness for C3 at a concrete input: a failed response in second
position with a budget of twenty attempts stops after two requests. -/
theorem pollForSummary_failedStops_witness :
    pollForSummary pollSeqFail ((20 : Nat) : Int) =
      (Except.error summaryGenerationFailedError, 2) :=
  pollForSummary_failedStops pollSeqFail 20 1 (by omega)
    (by
      intro j hj
      have hj0 : j = 0 := by omega
      subst hj0
      decide)
    rfl

/-! ## Claim C5 -/

/-- A web search response carrying no summarizer section. -/
def webNoSummarizer : WebSearchApiResponse := { type := "search" }

/-- A web search response carrying a summarizer key. -/
def webWithKey : WebSearchApiResponse :=
  { type := "search", summarizer := some { type := "summarizer", key := "abc123" } }

/-- C5: when the web search response contains no summarizer section, the
summary outcome of `getSummarizedAnswer` resolves to `undefined` (here
`none`) without issuing any summarizer lookup request and without
erroring. -/
theorem getSummarizedAnswerSummary_noKey (web : WebSearchApiResponse)
    (responses : Nat → SummarizerSearchApiResponse) (m : Int)
    (h : web.summarizer = none) :
    getSummarizedAnswerSummary web responses m = (Except.ok none, 0) := by
  unfold getSummarizedAnswerSummary
  rw [h]

/-- Witness for C5 at a concrete input. -/
theorem getSummarizedAnswerSummary_noKey_witness :
    getSummarizedAnswerSummary webNoSummarizer (fun _ => pendingResp) 20 =
      (Except.ok none, 0) :=
  getSummarizedAnswerSummary_noKey webNoSummarizer (fun _ => pendingResp) 20 rfl

/-! ## Claim C10 -/

/-- C10: with a zero or negative `maxPollAttempts`, the loop body never
runs: `pollForSummary` issues no request and immediately raises
`"Summary not available after maximum polling attempts"`; consequently
the summary outcome of a summarized search whose web response carries a
(truthy) summarizer key rejects with that error after zero summarizer
lookup requests. -/
theorem pollForSummary_nonpositiveAttempts
    (responses : Nat → SummarizerSearchApiResponse) (m : Int)
    (web : WebSearchApiResponse) (hm : m ≤ 0) :
    pollForSummary responses m = (Except.error summaryNotAvailableError, 0)
    ∧ (∀ s, web.summarizer = some s → s.key ≠ "" →
        getSummarizedAnswerSummary web responses m =
          (Except.error summaryNotAvailableError, 0)) := by
  have hp : pollForSummary responses m = (Except.error summaryNotAvailableError, 0) := by
    unfold pollForSummary
    rw [Int.toNat_of_nonpos hm]
    rfl
  refine ⟨hp, ?_⟩
  intro s hs hk
  unfold getSummarizedAnswerSummary
  rw [hs, hp]
  simp [hk]

/-- Witness for C10 at a concrete input: attempt budget of minus seven,
and a web response holding the key `"abc123"`. -/
theorem pollForSummary_nonpositiveAttempts_witness :
    pollForSummary (fun _ => pendingResp) (-7) =
      (Except.error summaryNotAvailableError, 0)
    ∧ getSummarizedAnswerSummary webWithKey (fun _ => pendingResp) (-7) =
      (Except.error summaryNotAvailableError, 0) :=
  ⟨(pollForSummary_nonpositiveAttempts (fun _ => pendingResp) (-7) webWithKey
      (by decide)).1,
   (pollForSummary_nonpositiveAttempts (fun _ => pendingResp) (-7) webWithKey
      (by decide)).2 { type := "summarizer", key := "abc123" } rfl (by decide)⟩

/-! ## Option serialization (`formatOptions`) -/

/-- Embeds the primitive values an options bag may hold
(`BraveSearchOptions` values are strings, booleans and numbers; an absent
optional field is `undefined`). -/
inductive JSPrimitive where
  | undef
  | str (s : String)
  | bool (b : Bool)
  | num (n : Int)
deriving DecidableEq

/-- `value.toString()` of a defined option value, or `none` for
`undefined` (which `formatOptions` skips before ever calling
`toString`). -/
def formatValue : JSPrimitive → Option String
  | JSPrimitive.undef => none
  | JSPrimitive.str s => some s
  | JSPrimitive.bool b => some (if b then "true" else "false")
  | JSPrimitive.num n => some (toString n)

/-- Embeds `formatOptions` (identical in all source variants):
`Object.entries(options).reduce((acc, [key, value]) => { if (value !==
undefined) acc[key] = value.toString(); return acc; }, {})`.  A JS object
is a finite map with distinct keys, modelled as an association list; the
reduce keeps exactly the entries with a defined value, stringified. -/
def formatOptions (options : List (String × JSPrimitive)) : List (String × String) :=
  options.filterMap fun kv => (formatValue kv.2).map fun s => (kv.1, s)

lemma mem_formatOptions_iff (options : List (String × JSPrimitive)) (k s : String) :
    (k, s) ∈ formatOptions options ↔
      ∃ v, (k, v) ∈ options ∧ formatValue v = some s := by
  constructor
  · intro h
    obtain ⟨⟨k2, v⟩, hmem, hf⟩ := List.mem_filterMap.mp h
    obtain ⟨t, ht, hps⟩ := Option.map_eq_some'.mp hf
    injection hps with h1 h2
    subst h1
    subst h2
    exact ⟨v, hmem, ht⟩
  · rintro ⟨v, hmem, hv⟩
    exact List.mem_filterMap.mpr ⟨(k, v), hmem, by rw [hv]; rfl⟩

lemma mem_formatOptions_keys_iff (options : List (String × JSPrimitive)) (k : String) :
    k ∈ (formatOptions options).map Prod.fst ↔
      ∃ v, (k, v) ∈ options ∧ v ≠ JSPrimitive.undef := by
  rw [List.mem_map]
  constructor
  · rintro ⟨⟨k2, s⟩, hmem, rfl⟩
    obtain ⟨v, hv1, hv2⟩ := (mem_formatOptions_iff options k2 s).mp hmem
    refine ⟨v, hv1, ?_⟩
    intro hu
    rw [hu] at hv2
    exact Option.noConfusion hv2
  · rintro ⟨v, hmem, hne⟩
    have hsome : ∃ s, formatValue v = some s := by
      cases v with
      | undef => exact absurd rfl hne
      | str s => exact ⟨s, rfl⟩
      | bool b => exact ⟨_, rfl⟩
      | num n => exact ⟨_, rfl⟩
    obtain ⟨s, hs⟩ := hsome
    exact ⟨(k, s), (mem_formatOptions_iff options k s).mpr ⟨v, hmem, hs⟩, rfl⟩

lemma value_eq_of_keysNodup {β : Type} :
    ∀ (l : List (String × β)), (l.map Prod.fst).Nodup →
      ∀ {k : String} {v w : β}, (k, v) ∈ l → (k, w) ∈ l → v = w := by
  intro l
  induction l with
  | nil =>
    intro _ k v w hv _
    cases hv
  | cons p t ih =>
    intro hnd k v w hv hw
    rw [List.map_cons, List.nodup_cons] at hnd
    rcases List.mem_cons.mp hv with hv1 | hv1 <;> rcases List.mem_cons.mp hw with hw1 | hw1
    · have h2 := hv1.trans hw1.symm
      injection h2
    · exfalso
      exact hnd.1 (by rw [← hv1]; exact List.mem_map.mpr ⟨(k, w), hw1, rfl⟩)
    · exfalso
      exact hnd.1 (by rw [← hw1]; exact List.mem_map.mpr ⟨(k, v), hv1, rfl⟩)
    · exact ih hnd.2 hv1 hw1

/-! ## Claim C6 -/

/-- C6: in an options bag (a JS object, so its keys are distinct), every
key whose value is `undefined` is absent from the serialized parameter
map feeding the outgoing query string — it is never sent as an empty
value or as the literal string `"undefined"` — and every key with a
defined value appears in it. -/
theorem formatOptions_undefined_omitted
    (options : List (String × JSPrimitive)) (k : String) (v : JSPrimitive) :
    ((options.map Prod.fst).Nodup → (k, JSPrimitive.undef) ∈ options →
        k ∉ (formatOptions options).map Prod.fst)
    ∧ ((k, v) ∈ options → v ≠ JSPrimitive.undef →
        k ∈ (formatOptions options).map Prod.fst) := by
  constructor
  · intro hnd hmem hk
    obtain ⟨w, hw, hwne⟩ := (mem_formatOptions_keys_iff options k).mp hk
    exact hwne (value_eq_of_keysNodup options hnd hw hmem)
  · intro hmem hne
    exact (mem_formatOptions_keys_iff options k).mpr ⟨v, hmem, hne⟩

/-- An options bag with one defined and one undefined entry. -/
def optionsW : List (String × JSPrimitive) :=
  [("count", JSPrimitive.num 5), ("summary", JSPrimitive.undef)]

/-- Witness for C6 at a concrete input. -/
theorem formatOptions_undefined_omitted_witness :
    "summary" ∉ (formatOptions optionsW).map Prod.fst
    ∧ "count" ∈ (formatOptions optionsW).map Prod.fst :=
  ⟨(formatOptions_undefined_omitted optionsW "summary" JSPrimitive.undef).1
      (by decide) (by decide),
   (formatOptions_undefined_omitted optionsW "count" (JSPrimitive.num 5)).2
      (by decide) (by decide)⟩

/-! ## Claim C9 -/

/-- C9: a key whose value is defined but falsy — the boolean `false`, the
number `0`, or the empty string — is still included in the serialized
parameter map, as its string form (`"false"`, `"0"`, or the empty
string); in general every defined value is included stringified, so only
`undefined` causes omission. -/
theorem formatOptions_falsy_included
    (options : List (String × JSPrimitive)) (k : String) :
    ((k, JSPrimitive.bool false) ∈ options → (k, "false") ∈ formatOptions options)
    ∧ ((k, JSPrimitive.num 0) ∈ options → (k, "0") ∈ formatOptions options)
    ∧ ((k, JSPrimitive.str "") ∈ options → (k, "") ∈ formatOptions options)
    ∧ (∀ v s, (k, v) ∈ options → formatValue v = some s →
        (k, s) ∈ formatOptions options) := by
  refine ⟨?_, ?_, ?_, ?_⟩
  · intro h
    exact (mem_formatOptions_iff options k "false").mpr ⟨_, h, rfl⟩
  · intro h
    exact (mem_formatOptions_iff options k "0").mpr ⟨_, h, by decide⟩
  · intro h
    exact (mem_formatOptions_iff options k "").mpr ⟨_, h, rfl⟩
  · intro v s h hv
    exact (mem_formatOptions_iff options k s).mpr ⟨v, h, hv⟩

/-- An options bag whose values are all defined but falsy. -/
def optionsFalsy : List (String × JSPrimitive) :=
  [("text_decorations", JSPrimitive.bool false), ("count", JSPrimitive.num 0),
   ("q", JSPrimitive.str "")]

/-- Witness for C9 at a concrete input. -/
theorem formatOptions_falsy_included_witness :
    ("text_decorations", "false") ∈ formatOptions optionsFalsy
    ∧ ("count", "0") ∈ formatOptions optionsFalsy
    ∧ ("q", "") ∈ formatOptions optionsFalsy :=
  ⟨(formatOptions_falsy_included optionsFalsy "text_decorations").1 (by decide),
   (formatOptions_falsy_included optionsFalsy "count").2.1 (by decide),
   (formatOptions_falsy_included optionsFalsy "q").2.2.1 (by decide)⟩

/-! ## Constructors and their defaults (claim C8) -/

/-- Embeds `PollingOptions` of `types.ts` (both fields optional). -/
structure PollingOptions where
  pollInterval : Option Int := none
  maxPollAttempts : Option Int := none
deriving DecidableEq

/-- The constant `baseUrl` field. -/
def braveBaseUrl : String := "https://api.search.brave.com/res/v1"

/-- The configuration a `BraveSearch` instance holds after construction.
All variants store `apiKey`, `baseUrl`, `pollInterval` and
`maxPollAttempts`; nothing in the class ever assigns to them after the
constructor returns, so the embedding passes this record around
read-only. -/
structure BraveSearchConfig where
  apiKey : String
  baseUrl : String
  pollInterval : Int
  maxPollAttempts : Int
deriving DecidableEq

/-- Embeds the constructor of the earliest variant
(`src/braveSearch.ts` lines 36-51): field initializers
`maxPollAttempts = 5`, `pollInterval = 500`, then
`if (options) { this.maxPollAttempts = options.maxPollAttempts ?? this.maxPollAttempts; this.pollInterval = options.pollInterval ?? this.pollInterval; }`. -/
def mkBraveSearchV1 (apiKey : String) (options : Option PollingOptions) :
    BraveSearchConfig :=
  match options with
  | none =>
    { apiKey, baseUrl := braveBaseUrl, pollInterval := 500, maxPollAttempts := 5 }
  | some o =>
    { apiKey, baseUrl := braveBaseUrl,
      pollInterval := o.pollInterval.getD 500,
      maxPollAttempts := o.maxPollAttempts.getD 5 }

/-- `const DEFAULT_POLLING_TIMEOUT = 20000` of the middle variants. -/
def DEFAULT_POLLING_TIMEOUT : Int := 20000

/-- Embeds the constructor of the middle variants
(`src/braveSearch.ts` lines 289-308 and `part_002` lines 41-53):
field initializers `pollInterval = 500`,
`maxPollAttempts = DEFAULT_POLLING_TIMEOUT / this.pollInterval`, then the
same `??` overrides as the earliest variant. -/
def mkBraveSearchV2 (apiKey : String) (options : Option PollingOptions) :
    BraveSearchConfig :=
  match options with
  | none =>
    { apiKey, baseUrl := braveBaseUrl, pollInterval := 500,
      maxPollAttempts := DEFAULT_POLLING_TIMEOUT / 500 }
  | some o =>
    { apiKey, baseUrl := braveBaseUrl,
      pollInterval := o.pollInterval.getD 500,
      maxPollAttempts := o.maxPollAttempts.getD (DEFAULT_POLLING_TIMEOUT / 500) }

/-- `const DEFAULT_POLLING_INTERVAL = 500` of the latest variant. -/
def DEFAULT_POLLING_INTERVAL : Int := 500

/-- `const DEFAULT_MAX_POLL_ATTEMPTS = 20` of the latest variant. -/
def DEFAULT_MAX_POLL_ATTEMPTS : Int := 20

/-- Embeds the constructor of the latest variant (`part_002` lines
276-327): `this.pollInterval = options?.pollInterval ?? DEFAULT_POLLING_INTERVAL;
this.maxPollAttempts = options?.maxPollAttempts ?? DEFAULT_MAX_POLL_ATTEMPTS;`. -/
def mkBraveSearchV3 (apiKey : String) (options : Option PollingOptions) :
    BraveSearchConfig :=
  { apiKey, baseUrl := braveBaseUrl,
    pollInterval := (options.bind PollingOptions.pollInterval).getD DEFAULT_POLLING_INTERVAL,
    maxPollAttempts := (options.bind PollingOptions.maxPollAttempts).getD DEFAULT_MAX_POLL_ATTEMPTS }

/-- C8 counterexample: a client built by the earliest variant's
constructor without explicit polling options has `maxPollAttempts = 5`,
not 20, and one built by the middle variants has `20000 / 500 = 40`, not
20; the claimed default of 20 holds only for the latest variant. -/
theorem constructorDefaults_cex :
    (mkBraveSearchV1 "api-key" none).maxPollAttempts ≠ 20
    ∧ (mkBraveSearchV2 "api-key" none).maxPollAttempts ≠ 20 := by
  constructor <;> decide

/-- C8 (amended): for every client constructed without explicit polling
options, the poll interval defaults to 500 milliseconds in every source
variant, while the default maximum number of poll attempts depends on
the variant: 5 in the earliest, 40 (20000ms timeout / 500ms interval) in
the middle ones, and 20 in the latest.  The values are fixed at
construction (the configuration record is read-only thereafter). -/
theorem constructorDefaults (apiKey : String) :
    (mkBraveSearchV1 apiKey none).pollInterval = 500
    ∧ (mkBraveSearchV1 apiKey none).maxPollAttempts = 5
    ∧ (mkBraveSearchV2 apiKey none).pollInterval = 500
    ∧ (mkBraveSearchV2 apiKey none).maxPollAttempts = 40
    ∧ (mkBraveSearchV3 apiKey none).pollInterval = 500
    ∧ (mkBraveSearchV3 apiKey none).maxPollAttempts = 20 := by
  refine ⟨rfl, rfl, rfl, ?_, rfl, rfl⟩
  norm_num [mkBraveSearchV2, DEFAULT_POLLING_TIMEOUT]

/-! ## String containment (`String.prototype.includes`) -/

/-- Whether the character list `hay` starts with the pattern `pat`
(first argument). -/
def startsWithL : List Char → List Char → Bool
  | [], _ => true
  | _ :: _, [] => false
  | p :: ps, h :: hs => h == p && startsWithL ps hs

/-- Whether the pattern `pat` occurs contiguously anywhere in `hay`. -/
def containsAtAnyL (pat : List Char) : List Char → Bool
  | [] => startsWithL pat []
  | h :: hs => startsWithL pat (h :: hs) || containsAtAnyL pat hs

/-- Embeds `s.includes(pat)` on JS strings. -/
def jsIncludes (s pat : String) : Bool :=
  containsAtAnyL pat.data s.data

lemma startsWithL_append (pat rest : List Char) :
    startsWithL pat (pat ++ rest) = true := by
  induction pat with
  | nil => rfl
  | cons p ps ih => simp [startsWithL, ih]

lemma containsAtAnyL_append_left (pat : List Char) (a : List Char) :
    ∀ rest, containsAtAnyL pat rest = true → containsAtAnyL pat (a ++ rest) = true := by
  induction a with
  | nil =>
    intro rest h
    simpa using h
  | cons x xs ih =>
    intro rest h
    show containsAtAnyL pat (x :: (xs ++ rest)) = true
    rw [containsAtAnyL, ih rest h]
    simp

lemma containsAtAnyL_at_front (pat tail : List Char) :
    containsAtAnyL pat (pat ++ tail) = true := by
  cases tail with
  | nil =>
    rw [List.append_nil]
    cases pat with
    | nil => rfl
    | cons p ps =>
      rw [containsAtAnyL]
      have hsw := startsWithL_append (p :: ps) []
      rw [List.append_nil] at hsw
      simp [hsw]
  | cons h t =>
    cases pat with
    | nil => simp [containsAtAnyL, startsWithL]
    | cons p ps =>
      show containsAtAnyL (p :: ps) (p :: (ps ++ h :: t)) = true
      rw [containsAtAnyL]
      have hsw := startsWithL_append (p :: ps) (h :: t)
      rw [List.cons_append] at hsw
      simp [hsw]

lemma jsIncludes_of_eq_append (s pat : String) (a b : List Char)
    (h : s.data = a ++ (pat.data ++ b)) : jsIncludes s pat = true := by
  unfold jsIncludes
  rw [h]
  exact containsAtAnyL_append_left pat.data a _ (containsAtAnyL_at_front pat.data b)

/-! ## Error classification (`handleApiError`) and the 422 retry -/

/-- The marker substring that `webSearch` looks for in the classified
error message to decide the one-shot retry:
`"Retrying with modified 'result_filter' option in request"`. -/
def retryMarker : String :=
  "Retrying with modified " ++ singleQuote ++ "result_filter" ++ singleQuote
    ++ " option in request"

/-- The widened filter the retry sets:
`"discussions,faq,news,query,summarizer,videos,web,infobox"`. -/
def widenedResultFilter : String :=
  "discussions,faq,news,query,summarizer,videos,web,infobox"

/-- Embeds the JS `||` fallback in
`error.response?.data?.message || error.message`: an absent or empty
(falsy) primary string falls back to the secondary one. -/
def jsOrString (primary : Option String) (fallback : String) : String :=
  match primary with
  | some s => if s == "" then fallback else s
  | none => fallback

/-- The string interpolation of `status : number | undefined` inside a
template literal: `undefined` prints as `"undefined"`. -/
def optStatusToString : Option Nat → String
  | none => "undefined"
  | some n => toString n

/-- Embeds `handleApiError` of the variants carrying `responseData`
(`src/braveSearch.ts` lines 483-498, `part_002` lines 529-544):
classification by status into rate-limit (429), authentication (401) and
generic API error, attaching `error.response?.data` to the surfaced
error.  Every endpoint method funnels its caught errors through this
function. -/
def handleApiError (error : RequestError) : BraveSearchError :=
  match error with
  | RequestError.axiosErr msg response =>
    let status := response.map AxiosResponse.status
    let dataMessage := (response.bind AxiosResponse.data).bind ResponseBody.message
    let message := jsOrString dataMessage msg
    let responseData := response.bind AxiosResponse.data
    if status == some 429 then
      { message := "Rate limit exceeded: " ++ message, responseData }
    else if status == some 401 then
      { message := "Authentication error: " ++ message, responseData }
    else
      { message := "API error (" ++ optStatusToString status ++ "): " ++ message,
        responseData }
  | RequestError.otherErr msg => { message := "Unexpected error: " ++ msg }

/-- Embeds `handleApiError` of the earliest variant
(`src/braveSearch.ts` lines 207-221): same messages, but the error type has
no `responseData` field, so only the message is surfaced. -/
def handleApiErrorV1 (error : RequestError) : BraveSearchErrorNoData :=
  match error with
  | RequestError.axiosErr msg response =>
    let status := response.map AxiosResponse.status
    let dataMessage := (response.bind AxiosResponse.data).bind ResponseBody.message
    let message := jsOrString dataMessage msg
    if status == some 429 then
      { message := "Rate limit exceeded: " ++ message }
    else if status == some 401 then
      { message := "Authentication error: " ++ message }
    else
      { message := "API error (" ++ optStatusToString status ++ "): " ++ message }
  | RequestError.otherErr msg => { message := "Unexpected error: " ++ msg }

/-- Embeds `handleApiError` of the retrying variant (`part_002` lines
220-244), which adds a 422 branch whose message ends with the retry
marker sentence (the `console.warn` side effect is not modelled). -/
def handleApiErrorRetryVariant (error : RequestError) : BraveSearchError :=
  match error with
  | RequestError.axiosErr msg response =>
    let status := response.map AxiosResponse.status
    let dataMessage := (response.bind AxiosResponse.data).bind ResponseBody.message
    let message := jsOrString dataMessage msg
    let responseData := response.bind AxiosResponse.data
    if status == some 429 then
      { message := "Rate limit exceeded: " ++ message, responseData }
    else if status == some 401 then
      { message := "Authentication error: " ++ message, responseData }
    else if status == some 422 then
      { message := "API error (" ++ optStatusToString status ++ "): " ++ message
          ++ ". " ++ retryMarker ++ ".",
        responseData }
    else
      { message := "API error (" ++ optStatusToString status ++ "): " ++ message,
        responseData }
  | RequestError.otherErr msg => { message := "Unexpected error: " ++ msg }

/-- Embeds `URLSearchParams.set(k, v)` on a parameter list: replace the
value of an existing key, or append the pair if the key is absent.  (The
parameter lists built by the client come from JS object spreads and hold
each key at most once.) -/
def setParam (params : List (String × String)) (k v : String) :
    List (String × String) :=
  if params.any (fun p => p.1 == k) then
    params.map (fun p => if p.1 == k then (k, v) else p)
  else
    params ++ [(k, v)]

/-- The outcome of one HTTP GET issued by `webSearch`. -/
inductive HttpOutcome where
  | ok (response : WebSearchApiResponse)
  | err (e : RequestError)
deriving DecidableEq

/-- Embeds `webSearch` of the retrying variant (`part_002` lines 55-90).
`first` and `retryOutcome` are the outcomes of the first and (possible)
second HTTP GET.  On an error whose classified message contains the
retry marker, the request is retried once with `result_filter` set to
the widened list; the retry's own error is classified and surfaced with
no further retry.  The second component is the trace of issued requests,
each with its query parameters. -/
def webSearchRetryVariant (params : List (String × String))
    (first retryOutcome : HttpOutcome) :
    Except BraveSearchError WebSearchApiResponse × List (List (String × String)) :=
  match first with
  | HttpOutcome.ok r => (Except.ok r, [params])
  | HttpOutcome.err e =>
    let handledError := handleApiErrorRetryVariant e
    if jsIncludes handledError.message retryMarker then
      let modifiedParams := setParam params "result_filter" widenedResultFilter
      match retryOutcome with
      | HttpOutcome.ok r => (Except.ok r, [params, modifiedParams])
      | HttpOutcome.err retryError =>
        (Except.error (handleApiErrorRetryVariant retryError), [params, modifiedParams])
    else
      (Except.error handledError, [params])

/-! ## Claim C4 -/

/-- C4 (amended): when a `webSearch` request fails with HTTP 422, exactly
one retry of the same request is attempted with `result_filter` set to
`"discussions,faq,news,query,summarizer,videos,web,infobox"`; if the
retry fails, the retry's classified error is surfaced as the final error
with no further retry; if it succeeds, its response is returned.  (The
trigger is a marker substring in the classified message, so it always
fires on 422 but — as the counterexample shows — can also fire on another
status whose server-provided message contains the marker text.) -/
theorem webSearch_422_retry
    (params : List (String × String)) (msg : String) (d : Option ResponseBody)
    (retryError : RequestError) (r : WebSearchApiResponse) :
    webSearchRetryVariant params
        (HttpOutcome.err (RequestError.axiosErr msg (some { status := 422, data := d })))
        (HttpOutcome.err retryError)
      = (Except.error (handleApiErrorRetryVariant retryError),
         [params, setParam params "result_filter" widenedResultFilter])
    ∧ webSearchRetryVariant params
        (HttpOutcome.err (RequestError.axiosErr msg (some { status := 422, data := d })))
        (HttpOutcome.ok r)
      = (Except.ok r, [params, setParam params "result_filter" widenedResultFilter]) := by
  have hmsg : (handleApiErrorRetryVariant
      (RequestError.axiosErr msg (some { status := 422, data := d }))).message
      = "API error (" ++ optStatusToString (some 422) ++ "): "
          ++ jsOrString (d.bind ResponseBody.message) msg ++ ". " ++ retryMarker ++ "." := rfl
  have hinc : jsIncludes ((handleApiErrorRetryVariant
      (RequestError.axiosErr msg (some { status := 422, data := d }))).message)
      retryMarker = true := by
    rw [hmsg]
    apply jsIncludes_of_eq_append _ _
      (("API error (" ++ optStatusToString (some 422) ++ "): "
          ++ jsOrString (d.bind ResponseBody.message) msg ++ ". ").data) (".".data)
    simp [String.data_append, List.append_assoc]
  constructor
  · simp only [webSearchRetryVariant, hinc, if_true]
  · simp only [webSearchRetryVariant, hinc, if_true]

/-- A 500 response whose server-provided message happens to contain the
retry marker text. -/
def body500 : ResponseBody := { message := some retryMarker, payload := "" }

/-- Concrete query parameters for the C4 counterexample. -/
def cexParams : List (String × String) := [("q", "obscure query")]

/-- A plain web search response with no summarizer section. -/
def plainWebResp : WebSearchApiResponse := { type := "search" }

/-- C4 counterexample: the clause "this retry triggers on no other status
code" is false.  The retry condition is a substring test on the
classified message, whose tail is server-controlled: a request failing
with HTTP 500 whose response body message contains the marker text also
triggers the widened-filter retry — here the trace shows a second request
being issued for a non-422 status. -/
theorem webSearch_422_retry_cex :
    webSearchRetryVariant cexParams
        (HttpOutcome.err (RequestError.axiosErr "Request failed with status code 500"
          (some { status := 500, data := some body500 })))
        (HttpOutcome.ok plainWebResp)
      = (Except.ok plainWebResp,
         [cexParams, setParam cexParams "result_filter" widenedResultFilter]) := by
  have hmsg : (handleApiErrorRetryVariant
      (RequestError.axiosErr "Request failed with status code 500"
        (some { status := 500, data := some body500 }))).message
      = "API error (" ++ optStatusToString (some 500) ++ "): " ++ retryMarker := rfl
  have hinc : jsIncludes ((handleApiErrorRetryVariant
      (RequestError.axiosErr "Request failed with status code 500"
        (some { status := 500, data := some body500 }))).message) retryMarker = true := by
    rw [hmsg]
    apply jsIncludes_of_eq_append _ _
      (("API error (" ++ optStatusToString (some 500) ++ "): ").data) []
    simp [String.data_append]
  simp only [webSearchRetryVariant, hinc, if_true]

/-! ## Claim C7 -/

/-- C7 (amended): on any request failing with HTTP 429, the surfaced
error's message contains `"Rate limit exceeded"` in every variant (all
endpoint methods funnel errors through `handleApiError`); the original
response body is attached as `responseData` in the variants whose error
type has that field, but the earliest variant's error carries only the
message, as its counterexample shows. -/
theorem handleApiError_rateLimit (msg : String) (d : Option ResponseBody) :
    jsIncludes (handleApiError
        (RequestError.axiosErr msg (some { status := 429, data := d }))).message
      "Rate limit exceeded" = true
    ∧ (handleApiError
        (RequestError.axiosErr msg (some { status := 429, data := d }))).responseData = d
    ∧ jsIncludes (handleApiErrorV1
        (RequestError.axiosErr msg (some { status := 429, data := d }))).message
      "Rate limit exceeded" = true := by
  have hsplit : ("Rate limit exceeded: ").data
      = ("Rate limit exceeded").data ++ (": ").data := by decide
  have hmsg : (handleApiError
      (RequestError.axiosErr msg (some { status := 429, data := d }))).message
      = "Rate limit exceeded: " ++ jsOrString (d.bind ResponseBody.message) msg := rfl
  have hmsgV1 : (handleApiErrorV1
      (RequestError.axiosErr msg (some { status := 429, data := d }))).message
      = "Rate limit exceeded: " ++ jsOrString (d.bind ResponseBody.message) msg := rfl
  refine ⟨?_, rfl, ?_⟩
  · rw [hmsg]
    apply jsIncludes_of_eq_append _ _ []
      ((": ").data ++ (jsOrString (d.bind ResponseBody.message) msg).data)
    simp [String.data_append, hsplit, List.append_assoc]
  · rw [hmsgV1]
    apply jsIncludes_of_eq_append _ _ []
      ((": ").data ++ (jsOrString (d.bind ResponseBody.message) msg).data)
    simp [String.data_append, hsplit, List.append_assoc]

/-- C7 counterexample: the earliest variant does not attach the response
body.  Two HTTP 429 failures whose bodies differ (distinct payloads,
same `message` field) are classified by `handleApiErrorV1` to the very
same error value, so that error cannot carry the original response body;
its type has no `responseData` field at all. -/
theorem handleApiError_rateLimit_cex :
    handleApiErrorV1 (RequestError.axiosErr "Request failed with status code 429"
        (some { status := 429, data := some { message := some "slow down", payload := "req-A" } }))
      = handleApiErrorV1 (RequestError.axiosErr "Request failed with status code 429"
        (some { status := 429, data := some { message := some "slow down", payload := "req-B" } }))
    ∧ ({ message := some "slow down", payload := "req-A" } : ResponseBody)
      ≠ { message := some "slow down", payload := "req-B" } := by
  exact ⟨rfl, by decide⟩
